import Mathlib

/-!
Shallow embedding of the gcp-secret-scanner pipeline (src/main.py) and proofs
about its candidate-to-verdict logic.

Python strings are modelled as `List Char`; the Python string operations used
by the source (`strip`, `split`, `startswith`, `endswith`, `in`, `lower`,
slicing) are modelled below with Python semantics.  All string operations of
the source are total, so the `try/except` wrappers around pure string code are
dead paths and the embedded functions are plain total functions.  External
effects (the Vertex AI call, the BigQuery query and the BigQuery insert) are
modelled by explicit outcome parameters.
-/

namespace SecretScanner

/-- Python strings are lists of characters. -/
abbrev Str := List Char

/-- Conversion from a Lean string literal to the embedded string type. -/
def s2l (s : String) : Str := s.toList

/-- The characters removed by Python `str.strip()` (ASCII whitespace; the
source only ever strips ASCII text). -/
def pyIsSpace (c : Char) : Bool :=
  c = ' ' || c = '\t' || c = '\n' || c = '\r' || c = '\x0b' || c = '\x0c'

/-- Python `str.lstrip()`. -/
def lstrip (s : Str) : Str := s.dropWhile pyIsSpace

/-- Python `str.rstrip()`. -/
def rstrip (s : Str) : Str := (s.reverse.dropWhile pyIsSpace).reverse

/-- Python `str.strip()`. -/
def pyStrip (s : Str) : Str := rstrip (lstrip s)

/-- Python `str.lower()` (ASCII case folding; the secret values matched by the
hunt query only contain `[-a-zA-Z0-9_./]`). -/
def lowerStr (s : Str) : Str := s.map Char.toLower

/-- Python `s.split('\n')`: splits at every newline, yields `[""]` on `""`. -/
def splitNl : Str → List Str
  | [] => [[]]
  | c :: rest =>
    match splitNl rest with
    | [] => [[c]]
    | l :: ls => if c = '\n' then [] :: l :: ls else (c :: l) :: ls

/-- Python `s.split(":", 1)[1]`: everything after the first colon.  In the
source this is only evaluated under a `startswith` guard that guarantees a
colon is present. -/
def afterColon (s : Str) : Str := (s.dropWhile (fun c => c != ':')).drop 1

/-- Python substring containment `needle in hay`. -/
def isSubstring (needle : Str) : Str → Bool
  | [] => needle.isPrefixOf ([] : Str)
  | c :: rest => needle.isPrefixOf (c :: rest) || isSubstring needle rest

/-- The structured verdict extracted from the classifier's free-form text
(`confidence`/`reasoning` locals of `hunt_and_analyze`, src/main.py lines
182-195). -/
structure Verdict where
  confidence : Str
  reasoning : Str
deriving DecidableEq

/-- The verdict parser inlined in the per-candidate loop of
`hunt_and_analyze` (src/main.py lines 182-195).  Defaults are
`confidence = "None"`, `reasoning = "Parsing error"`; line 0 must start with
`"CONFIDENCE:"` for the confidence to be read, line 1 must start with
`"REASONING:"` for the reasoning to be read, and a single-line input gets the
missing-reasoning message.  The `except` branch of the source is unreachable:
every operation in the `try` block is a total string operation. -/
def parse_verdict (ai_analysis : Str) : Verdict :=
  let lines := splitNl (pyStrip ai_analysis)
  let confidence :=
    if 1 ≤ lines.length ∧ (s2l "CONFIDENCE:").isPrefixOf (lines.getD 0 []) = true then
      pyStrip (afterColon (lines.getD 0 []))
    else s2l "None"
  let reasoning :=
    if 2 ≤ lines.length ∧ (s2l "REASONING:").isPrefixOf (lines.getD 1 []) = true then
      pyStrip (afterColon (lines.getD 1 []))
    else if lines.length = 1 then s2l "AI response missing reasoning."
    else s2l "Parsing error"
  ⟨confidence, reasoning⟩

/-- The placeholder pre-filter of `analyze_with_ai` (src/main.py line 60):
skip when the value is `None`, contains `"example"` or `"test"`
case-insensitively, starts with `"YOUR_"` or ends with `"_HERE"`. -/
def shouldSkip : Option Str → Bool
  | none => true
  | some s =>
    isSubstring (s2l "example") (lowerStr s) || isSubstring (s2l "test") (lowerStr s)
      || (s2l "YOUR_").isPrefixOf s || (s2l "_HERE").isSuffixOf s

/-- The response-format check of `analyze_with_ai` (src/main.py lines
119-121): a response lacking the substring `"CONFIDENCE:"` or the substring
`"REASONING:"` is replaced by the literal format-error text. -/
def format_check (analysis_text : Str) : Str :=
  if !isSubstring (s2l "CONFIDENCE:") analysis_text
      || !isSubstring (s2l "REASONING:") analysis_text then
    s2l "CONFIDENCE: Low\nREASONING: AI response format error."
  else analysis_text

/-- First index of the literal `needle` in `hay`
(`re.finditer(re.escape(needle), hay)`'s first match, src/main.py line 69). -/
def findSub (needle : Str) : Str → Option Nat
  | [] => if needle.isPrefixOf ([] : Str) then some 0 else none
  | c :: rest =>
    if needle.isPrefixOf (c :: rest) then some 0
    else (findSub needle rest).map (· + 1)

/-- The ellipsis marker. -/
def dots : Str := s2l "..."

/-- The context-window extraction of `analyze_with_ai` (src/main.py lines
64-79), parameterized by the window size (the source fixes
`context_window = 150`).  Empty content or empty secret keeps the secret
itself; a found occurrence is windowed and clamped to the content bounds with
`"..."` markers on each side that was cut; a missing occurrence falls back to
the first `2*window` characters plus `"..."`.  Nat subtraction models
Python's `max(0, match_start - context_window)`. -/
def build_context (context_window : Nat) (code_snippet potential_secret_value : Str) : Str :=
  if code_snippet.isEmpty || potential_secret_value.isEmpty then potential_secret_value
  else
    match findSub potential_secret_value code_snippet with
    | some matchStart =>
      let matchEnd := matchStart + potential_secret_value.length
      let start := matchStart - context_window
      let stop := min code_snippet.length (matchEnd + context_window)
      let snippet := (code_snippet.drop start).take (stop - start)
      let snippet := if 0 < start then dots ++ snippet else snippet
      if stop < code_snippet.length then snippet ++ dots else snippet
    | none => code_snippet.take (context_window * 2) ++ dots

/-- Outcome of the external Vertex AI call (`gen_model.generate_content`):
either some response text (the source's extraction of `analysis_text` from
the response object always yields a string) or a raised exception with a
message. -/
inductive AIOutcome where
  | ok (text : Str)
  | err (msg : Str)
deriving DecidableEq

/-- `analyze_with_ai` (src/main.py lines 56-127).  Returns the analysis text
together with whether the external classifier was invoked.  The placeholder
filter returns the placeholder literal without calling the classifier; an
exception from the call is converted to a quota or communication degraded
literal (`"Quota" in str(e)` decides which); a successful response passes
through the format check.  The contextual snippet is built only to be
embedded in the prompt, whose effect is the opaque `ai` outcome. -/
def analyze_with_ai (code_snippet : Str) (potential_secret_value : Option Str)
    (ai : AIOutcome) : Str × Bool :=
  if shouldSkip potential_secret_value then
    (s2l "CONFIDENCE: None\nREASONING: Likely placeholder or example value.", false)
  else
    let _contextual_snippet :=
      build_context 150 code_snippet (potential_secret_value.getD [])
    match ai with
    | .ok text => (format_check text, true)
    | .err msg =>
      if isSubstring (s2l "Quota") msg then
        (s2l "CONFIDENCE: None\nREASONING: Vertex AI quota exceeded during analysis.", true)
      else
        (s2l "CONFIDENCE: None\nREASONING: Error during AI analysis communication.", true)

/-- A Python value read off a BigQuery row attribute: a string, `None`, or
some non-string value.  `getattr(row, name, None)` yields `noneV` for a
missing attribute. -/
inductive PyVal where
  | str (s : Str)
  | noneV
  | other
deriving DecidableEq

/-- The string carried by a `PyVal`, empty otherwise. -/
def pvStr : PyVal → Str
  | .str s => s
  | _ => []

/-- The row-skip test of the per-candidate loop (src/main.py line 169):
`not potential_secret_value or not isinstance(potential_secret_value, str)`
— `None`, a non-string value, and the empty string are all skipped. -/
def skipVal : PyVal → Bool
  | .str s => s.isEmpty
  | _ => true

/-- One row yielded by the BigQuery result stream.  `repo_name` and `path`
model `getattr(row, _, 'N/A')`; `content` and `potential_secret` can be
missing, `None`, or non-strings. -/
structure Row where
  repo_name : Option Str
  path : Option Str
  content : PyVal
  potential_secret : PyVal
deriving DecidableEq

/-- The confidence gate (src/main.py line 199):
`confidence.lower() in ["high", "medium"]`. -/
def gate (confidence : Str) : Bool :=
  (lowerStr confidence == s2l "high") || (lowerStr confidence == s2l "medium")

/-- The record inserted into BigQuery for an accepted verdict (src/main.py
lines 201-208). -/
structure Finding where
  repo_name : Str
  file_path : Str
  secret_snippet : Str
  ai_confidence : Str
  ai_reasoning : Str
  scan_timestamp : Str
deriving DecidableEq

/-- The body of the per-candidate loop of `hunt_and_analyze` (src/main.py
lines 163-210) for one row: skip rows without a valid string
`potential_secret` (no classification, no verdict, no finding); otherwise
coerce missing content to `""`, run `analyze_with_ai`, parse the verdict,
and build a finding iff the confidence gate accepts.  Returns the finding,
if any, and whether the external classifier was invoked.  `now` is the
`datetime.utcnow()` timestamp string. -/
def processRow (ai : AIOutcome) (now : Str) (row : Row) : Option Finding × Bool :=
  if skipVal row.potential_secret then (none, false)
  else
    let secret := pvStr row.potential_secret
    let content := pvStr row.content
    let res := analyze_with_ai content (some secret) ai
    let v := parse_verdict res.1
    if gate v.confidence then
      (some { repo_name := row.repo_name.getD (s2l "N/A"),
              file_path := row.path.getD (s2l "N/A"),
              secret_snippet := secret.take 1024,
              ai_confidence := v.confidence,
              ai_reasoning := v.reasoning.take 1024,
              scan_timestamp := now }, res.2)
    else (none, res.2)

/-- Accumulated observable state of the candidate loop. -/
structure LoopResult where
  processed : Nat
  findings : List Finding
  classifierCalls : Nat
deriving DecidableEq

/-- The candidate loop (src/main.py lines 163-210): every yielded row
increments `processed_count`; findings accumulate in iteration order.
`ai i` is the classifier outcome for the row at position `i`. -/
def runLoop (ai : Nat → AIOutcome) (now : Str) : List Row → Nat → LoopResult
  | [], _ => ⟨0, [], 0⟩
  | r :: rest, i =>
    let pr := processRow (ai i) now r
    let acc := runLoop ai now rest (i + 1)
    ⟨acc.processed + 1, pr.1.toList ++ acc.findings,
      (if pr.2 then 1 else 0) + acc.classifierCalls⟩

/-- Outcome of the BigQuery hunt query (`bq_client.query` /
`query_job.result()`): a row stream, or one of the exceptions caught at the
top level of `hunt_and_analyze` (src/main.py lines 218-227). -/
inductive QueryOutcome where
  | ok (rows : List Row)
  | forbidden (msg : Str)
  | badRequest (msg : Str)
  | otherError (msg : Str)
deriving DecidableEq

/-- Outcome of `bq_client.insert_rows_json`: success, a per-record error
list, or a raised exception. -/
inductive SinkOutcome where
  | ok
  | rowErrors (errs : List (Nat × Str))
  | raised (msg : Str)
deriving DecidableEq

/-- Python `str(n)` for a natural number. -/
def natStr (n : Nat) : Str := (Nat.repr n).toList

/-- `log_to_bigquery` (src/main.py lines 130-145), returning the
`logging.error` lines it emits: nothing on an empty batch (the insert is not
attempted) or successful insert; one line per failing record index; one line
for a raised insert exception.  Every failure is swallowed. -/
def log_to_bigquery (rows_to_insert : List Finding) (sink : SinkOutcome) : List Str :=
  if rows_to_insert.isEmpty then []
  else
    match sink with
    | .ok => []
    | .rowErrors errs =>
      errs.map (fun e =>
        s2l "BigQuery insert error: Index " ++ natStr e.1 ++ s2l ", Errors: " ++ e.2)
    | .raised msg => [s2l "Failed to insert rows into BigQuery: " ++ msg]

/-- The value of the `HUNT_QUERY` constant (src/main.py lines 30-54), after
resolving the Python escape sequences of the non-raw triple-quoted literal
(`\x5c\x5c\x5c\x5c` denotes two backslashes, `\x5c\x5c\x5c\x27` a backslash
followed by a quote). -/
def HUNT_QUERY : Str := s2l (
  "\n    SELECT\n" ++
  "      f.repo_name,\n" ++
  "      f.path,\n" ++
  "      c.content,\n" ++
  "      -- REGEXP_EXTRACT without r\x27\x27 and using \\ for escapes, including \x27\n" ++
  "      REGEXP_EXTRACT(c.content, \x27(?i)(?:api_key|secret_key|access_token)\\\\s*[:=]\\\\s*[\"\\\x27]?([-a-zA-Z0-9_./]\x7b20,\x7d)[\"\\\x27]?\x27) AS potential_secret\n" ++
  "    FROM\n" ++
  "      `bigquery-public-data.github_repos.files` AS f\n" ++
  "    JOIN\n" ++
  "      `bigquery-public-data.github_repos.contents` AS c\n" ++
  "    ON\n" ++
  "      f.id = c.id\n" ++
  "    WHERE\n" ++
  "      -- REGEXP_CONTAINS without r\x27\x27 and using \\.\n" ++
  "      (REGEXP_CONTAINS(f.path, \x27\\\\.(py|ya?ml|json|env|conf|cfg|properties|sh)$\x27) OR f.path LIKE \x27%config%\x27)\n" ++
  "      AND c.size < 100000 -- Avoid huge files\n" ++
  "      -- REGEXP_CONTAINS without r\x27\x27 and using \\s\n" ++
  "      AND REGEXP_CONTAINS(c.content, \x27(?i)(api_key|secret|token|password|credential|private_key)\\\\s*[:=]\x27)\n" ++
  "      -- REGEXP_CONTAINS without r\x27\x27 - no escapes needed here\n" ++
  "      AND NOT REGEXP_CONTAINS(f.path, \x27(?i)(test|example|sample|demo|mock|fake)\x27)\n" ++
  "      AND c.content IS NOT NULL -- Ensure content is not null\n" ++
  "      AND LENGTH(c.content) > 0 -- Ensure content is not empty\n" ++
  "    LIMIT 25; -- Limit results for function runtime constraints\n")

/-- The observable result of one `hunt_and_analyze` invocation: the HTTP
body and status it returns, plus the externally visible effects (rows
processed, classifier invocations, findings handed to the sink, whether the
insert was attempted, and the `logging.error` lines of the failure
handlers). -/
structure RunOutput where
  body : Str
  status : Nat
  processed : Nat
  findings : List Finding
  classifierCalls : Nat
  sinkCalled : Bool
  errorLog : List Str
deriving DecidableEq

/-- The success summary (src/main.py line 214). -/
def successMsg (processed accepted : Nat) : Str :=
  s2l "Scan complete. Processed " ++ natStr processed ++
    s2l " candidates. Found and logged " ++ natStr accepted ++
    s2l " high/medium-confidence leaks."

/-- `hunt_and_analyze` (src/main.py lines 150-228).  A successful query
drives the candidate loop, calls `log_to_bigquery` once with the full batch
(which attempts the insert only on a non-empty batch) and returns the
summary with status 200 regardless of the sink outcome.  A `Forbidden`,
`BadRequest` or other exception from the query stage yields a distinct
500 body, no processed candidate, no sink call, and the corresponding
`logging.error` lines (including the failing query text for
`BadRequest`). -/
def hunt_and_analyze (q : QueryOutcome) (ai : Nat → AIOutcome) (now : Str)
    (sink : SinkOutcome) : RunOutput :=
  match q with
  | .ok rows =>
    let res := runLoop ai now rows 0
    { body := successMsg res.processed res.findings.length
      status := 200
      processed := res.processed
      findings := res.findings
      classifierCalls := res.classifierCalls
      sinkCalled := !res.findings.isEmpty
      errorLog := log_to_bigquery res.findings sink }
  | .forbidden msg =>
    { body := s2l "Permission Error: " ++ msg, status := 500, processed := 0,
      findings := [], classifierCalls := 0, sinkCalled := false,
      errorLog := [s2l "Permission error during BigQuery job execution: " ++ msg] }
  | .badRequest msg =>
    { body := s2l "Bad Query Error: " ++ msg, status := 500, processed := 0,
      findings := [], classifierCalls := 0, sinkCalled := false,
      errorLog := [s2l "Bad Request/Query Syntax error during BigQuery job execution: " ++ msg,
                   s2l "Failing Query:\n---\n" ++ HUNT_QUERY ++ s2l "\n---"] }
  | .otherError msg =>
    { body := s2l "Error during execution: " ++ msg, status := 500, processed := 0,
      findings := [], classifierCalls := 0, sinkCalled := false,
      errorLog := [s2l "Critical error during function execution: " ++ msg] }

/-! ### Properties of the embedded Python string operations -/

lemma splitNl_ne_nil (s : Str) : splitNl s ≠ [] := by
  cases s with
  | nil => simp [splitNl]
  | cons c rest =>
    simp only [splitNl]
    rcases splitNl rest with _ | ⟨l, ls⟩
    · simp
    · by_cases hc : c = '\n' <;> simp [hc]

lemma splitNl_of_not_mem {s : Str} (h : ('\n' : Char) ∉ s) : splitNl s = [s] := by
  induction s with
  | nil => rfl
  | cons c rest ih =>
    have hc : c ≠ '\n' := fun hh => h (hh ▸ List.mem_cons_self c rest)
    have hr : ('\n' : Char) ∉ rest := fun hh => h (List.mem_cons_of_mem _ hh)
    simp only [splitNl, ih hr]
    simp [hc]

lemma splitNl_append {a : Str} (m : Str) (h : ('\n' : Char) ∉ a) :
    splitNl (a ++ '\n' :: m) = a :: splitNl m := by
  induction a with
  | nil =>
    cases hm : splitNl m with
    | nil => exact absurd hm (splitNl_ne_nil m)
    | cons l ls => simp [splitNl, hm]
  | cons c t ih =>
    have hc : c ≠ '\n' := fun hh => h (hh ▸ List.mem_cons_self c t)
    have ht : ('\n' : Char) ∉ t := fun hh => h (List.mem_cons_of_mem _ hh)
    simp only [List.cons_append, splitNl, List.append_eq]
    rw [ih ht]
    simp [hc]

lemma dropWhile_idem (p : Char → Bool) (l : Str) :
    List.dropWhile p (List.dropWhile p l) = List.dropWhile p l := by
  induction l with
  | nil => rfl
  | cons c t ih =>
    by_cases hc : p c
    · simp [List.dropWhile_cons, hc, ih]
    · simp [List.dropWhile_cons, hc]

lemma rstrip_append (a : Str) (c : Char) (m : Str) (hc : pyIsSpace c = false) :
    rstrip ((a ++ [c]) ++ m) = (a ++ [c]) ++ rstrip m := by
  unfold rstrip
  have hrev : ((a ++ [c]) ++ m).reverse = m.reverse ++ (c :: a.reverse) := by
    simp
  rw [hrev, List.dropWhile_append]
  by_cases h : (List.dropWhile pyIsSpace m.reverse).isEmpty
  · rw [if_pos h]
    rw [List.isEmpty_iff] at h
    simp [List.dropWhile_cons, hc, h]
  · rw [if_neg h]
    simp

lemma rstrip_cons (c : Char) (t : Str) :
    rstrip (c :: t) =
      if rstrip t = [] then (if pyIsSpace c then [] else [c]) else c :: rstrip t := by
  unfold rstrip
  rw [List.reverse_cons, List.dropWhile_append]
  by_cases h : (List.dropWhile pyIsSpace t.reverse).isEmpty
  · rw [if_pos h]
    rw [List.isEmpty_iff] at h
    by_cases hc : pyIsSpace c <;> simp [List.dropWhile_cons, hc, h]
  · rw [if_neg h]
    rw [List.isEmpty_iff] at h
    have hne : (List.dropWhile pyIsSpace t.reverse).reverse ≠ [] := by
      simpa using h
    rw [if_neg hne]
    simp

lemma lstrip_eq_nil_of_rstrip {s : Str} (h : rstrip s = []) : lstrip s = [] := by
  have h1 : List.dropWhile pyIsSpace s.reverse = [] := by
    have h2 := congrArg List.reverse h
    simpa [rstrip] using h2
  rw [List.dropWhile_eq_nil_iff] at h1
  rw [lstrip, List.dropWhile_eq_nil_iff]
  intro x hx
  exact h1 x (List.mem_reverse.mpr hx)

lemma rstrip_rstrip (s : Str) : rstrip (rstrip s) = rstrip s := by
  unfold rstrip
  rw [List.reverse_reverse, dropWhile_idem]

lemma lstrip_rstrip (s : Str) : lstrip (rstrip s) = rstrip (lstrip s) := by
  induction s with
  | nil => rfl
  | cons c t ih =>
    rw [rstrip_cons]
    by_cases hn : rstrip t = []
    · rw [if_pos hn]
      have hlt : lstrip t = [] := lstrip_eq_nil_of_rstrip hn
      by_cases hc : pyIsSpace c
      · have l2 : lstrip (c :: t) = lstrip t := by
          simp [lstrip, List.dropWhile_cons, hc]
        rw [if_pos hc, l2, hlt]
        rfl
      · have l2 : lstrip (c :: t) = c :: t := by
          simp [lstrip, List.dropWhile_cons, hc]
        have l1 : lstrip [c] = [c] := by
          simp [lstrip, List.dropWhile_cons, hc]
        rw [if_neg hc, l1, l2, rstrip_cons, if_pos hn, if_neg hc]
    · rw [if_neg hn]
      by_cases hc : pyIsSpace c
      · have l1 : lstrip (c :: rstrip t) = lstrip (rstrip t) := by
          simp [lstrip, List.dropWhile_cons, hc]
        have l2 : lstrip (c :: t) = lstrip t := by
          simp [lstrip, List.dropWhile_cons, hc]
        rw [l1, ih, l2]
      · have l1 : lstrip (c :: rstrip t) = c :: rstrip t := by
          simp [lstrip, List.dropWhile_cons, hc]
        have l2 : lstrip (c :: t) = c :: t := by
          simp [lstrip, List.dropWhile_cons, hc]
        rw [l1, l2, rstrip_cons, if_neg hn]

lemma pyStrip_rstrip (s : Str) : pyStrip (rstrip s) = pyStrip s := by
  unfold pyStrip
  rw [lstrip_rstrip, rstrip_rstrip]

lemma mem_of_mem_rstrip {c : Char} {s : Str} (h : c ∈ rstrip s) : c ∈ s := by
  unfold rstrip at h
  rw [List.mem_reverse] at h
  exact List.mem_reverse.mp ((List.dropWhile_sublist pyIsSpace).mem h)

lemma pyStrip_cons_space (y : Str) : pyStrip (' ' :: y) = pyStrip y := rfl

/-- Parsing a two-line text whose first line `l0` is newline-free, starts
with a non-space character and passes the `CONFIDENCE:` guard, and whose
second line is `"REASONING: " ++ y` with newline-free `y`: the parser
returns the confidence extracted from `l0` and the stripped `y`. -/
lemma parse_verdict_two_lines (l0 y conf : Str)
    (hne : l0 ≠ []) (hh : pyIsSpace l0.headI = false)
    (hnl : ('\n' : Char) ∉ l0)
    (hguard : (s2l "CONFIDENCE:").isPrefixOf l0 = true)
    (hconf : pyStrip (afterColon l0) = conf)
    (hy : ('\n' : Char) ∉ y) :
    parse_verdict (l0 ++ '\n' :: (s2l "REASONING: " ++ y)) = ⟨conf, pyStrip y⟩ := by
  obtain ⟨c, t, rfl⟩ := List.exists_cons_of_ne_nil hne
  have hc : pyIsSpace c = false := by simpa using hh
  have hre : s2l "REASONING:" = s2l "REASONING" ++ [':'] := by decide
  have hsp : s2l "REASONING: " ++ y = s2l "REASONING:" ++ (' ' :: y) := by
    have h1 : s2l "REASONING: " = s2l "REASONING:" ++ [' '] := by decide
    rw [h1, List.append_assoc]
    rfl
  have hstrip : pyStrip ((c :: t) ++ '\n' :: (s2l "REASONING: " ++ y))
      = (c :: t) ++ '\n' :: (s2l "REASONING:" ++ rstrip (' ' :: y)) := by
    rw [hsp]
    have hshape : (c :: t) ++ '\n' :: (s2l "REASONING:" ++ (' ' :: y))
        = (((c :: t) ++ '\n' :: s2l "REASONING") ++ [':']) ++ (' ' :: y) := by
      rw [hre]
      simp
    rw [hshape]
    unfold pyStrip
    have hl : lstrip ((((c :: t) ++ '\n' :: s2l "REASONING") ++ [':']) ++ (' ' :: y))
        = (((c :: t) ++ '\n' :: s2l "REASONING") ++ [':']) ++ (' ' :: y) := by
      simp [lstrip, List.cons_append, List.dropWhile_cons, hc]
    rw [hl, rstrip_append _ ':' _ (by decide), hre]
    simp
  have hnl2 : ('\n' : Char) ∉ s2l "REASONING:" ++ rstrip (' ' :: y) := by
    intro hmem
    rcases List.mem_append.mp hmem with h1 | h1
    · exact absurd h1 (by decide)
    · rcases List.mem_cons.mp (mem_of_mem_rstrip h1) with h2 | h2
      · exact absurd h2 (by decide)
      · exact hy h2
  have hsplit : splitNl (pyStrip ((c :: t) ++ '\n' :: (s2l "REASONING: " ++ y)))
      = [c :: t, s2l "REASONING:" ++ rstrip (' ' :: y)] := by
    rw [hstrip, splitNl_append _ hnl, splitNl_of_not_mem hnl2]
  have hac : afterColon (s2l "REASONING:" ++ rstrip (' ' :: y)) = rstrip (' ' :: y) := by
    unfold afterColon
    have hsplit2 : s2l "REASONING:" ++ rstrip (' ' :: y)
        = s2l "REASONING" ++ (':' :: rstrip (' ' :: y)) := by
      rw [hre]
      simp
    rw [hsplit2, List.dropWhile_append_of_pos (by decide),
      List.dropWhile_cons_of_neg (by decide)]
    rfl
  simp only [parse_verdict]
  rw [hsplit]
  simp only [List.length_cons, List.length_nil, List.getD, List.get?, Option.getD_some]
  rw [if_pos ⟨by norm_num, hguard⟩, hconf,
    if_pos ⟨by norm_num, List.isPrefixOf_iff_prefix.mpr (List.prefix_append _ _)⟩,
    hac, pyStrip_rstrip, pyStrip_cons_space]

/-- Every row reaching the loop body increments `processed_count`. -/
lemma runLoop_processed (ai : Nat → AIOutcome) (now : Str) :
    ∀ (rows : List Row) (i : Nat), (runLoop ai now rows i).processed = rows.length := by
  intro rows
  induction rows with
  | nil => intro i; rfl
  | cons r rest ih =>
    intro i
    simp [runLoop, ih]

/-- If no row of the batch produces a finding, the loop accumulates none. -/
lemma runLoop_findings_nil (ai : Nat → AIOutcome) (now : Str) :
    ∀ (rows : List Row) (i : Nat),
      (∀ j (hj : j < rows.length), (processRow (ai (i + j)) now (rows.get ⟨j, hj⟩)).1 = none) →
      (runLoop ai now rows i).findings = [] := by
  intro rows
  induction rows with
  | nil => intro i _; rfl
  | cons r rest ih =>
    intro i h
    have h0 : (processRow (ai i) now r).1 = none := by
      have h1 := h 0 (by simp)
      simpa using h1
    have hrest : ∀ j (hj : j < rest.length),
        (processRow (ai ((i + 1) + j)) now (rest.get ⟨j, hj⟩)).1 = none := by
      intro j hj
      have h1 := h (j + 1) (by simpa using Nat.succ_lt_succ hj)
      have harith : i + (j + 1) = (i + 1) + j := by omega
      rw [harith] at h1
      simpa using h1
    simp [runLoop, h0, ih (i + 1) hrest]

/-! ### Claims -/

/-- Claim C1 (counterexample): a classifier output whose first line does not
start with `"CONFIDENCE:"` but which contains both the `"CONFIDENCE:"` and
`"REASONING:"` markers passes the format check unchanged and parses to
confidence `"None"` with the reasoning of line 1 — not to
`{Low, "AI response format error."}` as the claim states. -/
theorem C1_counterexample :
    parse_verdict (format_check (s2l "x CONFIDENCE: High\nREASONING: ok")) =
      ⟨s2l "None", s2l "ok"⟩ ∧
    parse_verdict (format_check (s2l "x CONFIDENCE: High\nREASONING: ok")) ≠
      ⟨s2l "Low", s2l "AI response format error."⟩ ∧
    (s2l "CONFIDENCE:").isPrefixOf
      (splitNl (s2l "x CONFIDENCE: High\nREASONING: ok")).headI = false := by
  decide

/-- Claim C1 (amended): the format-error verdict
`{Low, "AI response format error."}` is produced exactly by the classifier
boundary: whenever the raw output lacks the substring `"CONFIDENCE:"` or the
substring `"REASONING:"` (the empty string included), `analyze_with_ai`
substitutes the literal format-error text, and parsing it yields
`{Low, "AI response format error."}`. -/
theorem C1_amended (t : Str)
    (h : isSubstring (s2l "CONFIDENCE:") t = false ∨
      isSubstring (s2l "REASONING:") t = false) :
    parse_verdict (format_check t) = ⟨s2l "Low", s2l "AI response format error."⟩ := by
  have hfc : format_check t = s2l "CONFIDENCE: Low\nREASONING: AI response format error." := by
    unfold format_check
    rcases h with h | h <;> simp [h]
  rw [hfc]
  decide

/-- Witness for C1_amended at the empty classifier output. -/
theorem C1_amended_witness :
    parse_verdict (format_check (s2l "")) =
      ⟨s2l "Low", s2l "AI response format error."⟩ :=
  C1_amended (s2l "") (Or.inl (by decide))

/-- Claim C2: a candidate whose secret value is absent, contains
`"example"` or `"test"` case-insensitively, starts with `"YOUR_"` or ends
with `"_HERE"` never reaches the external classifier, and the returned text
is exactly the two-line placeholder verdict. -/
theorem C2_placeholder_skip (code_snippet : Str) (v : Option Str) (ai : AIOutcome)
    (h : v = none ∨ ∃ s, v = some s ∧
      (isSubstring (s2l "example") (lowerStr s) = true ∨
       isSubstring (s2l "test") (lowerStr s) = true ∨
       (s2l "YOUR_").isPrefixOf s = true ∨
       (s2l "_HERE").isSuffixOf s = true)) :
    analyze_with_ai code_snippet v ai =
      (s2l "CONFIDENCE: None\nREASONING: Likely placeholder or example value.", false) := by
  have hs : shouldSkip v = true := by
    rcases h with rfl | ⟨s, rfl, h⟩
    · rfl
    · simp only [shouldSkip, Bool.or_eq_true]
      tauto
  simp [analyze_with_ai, hs]

/-- Witness for C2_placeholder_skip on a `YOUR_`-prefixed value. -/
theorem C2_witness :
    analyze_with_ai (s2l "cfg") (some (s2l "YOUR_KEY_1234567890"))
      (.ok (s2l "CONFIDENCE: High\nREASONING: x")) =
      (s2l "CONFIDENCE: None\nREASONING: Likely placeholder or example value.", false) :=
  C2_placeholder_skip _ _ _
    (Or.inr ⟨_, rfl, Or.inr (Or.inr (Or.inl (by decide)))⟩)

/-- Claim C3 (counterexample): for content `"AAAA" ++ "SECRET123" ++ "BBBB"`
and window 2 the source prefixes and suffixes `"..."` (the window cuts two
characters on each side), so the result is `"...AASECRET123BB..."`, not the
ellipsis-free `"AASECRET123BB"` of the claim. -/
theorem C3_counterexample :
    build_context 2 (s2l "AAAASECRET123BBBB") (s2l "SECRET123") =
      s2l "...AASECRET123BB..." ∧
    build_context 2 (s2l "AAAASECRET123BBBB") (s2l "SECRET123") ≠
      s2l "AASECRET123BB" := by
  decide

/-- Claim C3 (amended): on the claim's input the windower returns
`"...AASECRET123BB..."` (ellipses on both sides, since the window excludes
two characters on each side); in general a match at the start of the content
gets no left `"..."` and a match at the end gets no right `"..."`. -/
theorem C3_amended :
    build_context 2 (s2l "AAAASECRET123BBBB") (s2l "SECRET123") =
      s2l "...AASECRET123BB..." ∧
    (∀ (w : Nat) (content v : Str), v ≠ [] → content ≠ [] →
      findSub v content = some 0 →
      build_context w content v =
        content.take (v.length + w) ++
          (if v.length + w < content.length then dots else [])) ∧
    (∀ (w : Nat) (content v : Str) (i : Nat), v ≠ [] → content ≠ [] →
      findSub v content = some i → i + v.length = content.length →
      build_context w content v =
        (if 0 < i - w then dots else []) ++ content.drop (i - w)) := by
  refine ⟨by decide, ?_, ?_⟩
  · intro w content v hv hcont hfind
    obtain ⟨a, as, rfl⟩ := List.exists_cons_of_ne_nil hcont
    obtain ⟨b, bs, rfl⟩ := List.exists_cons_of_ne_nil hv
    simp only [build_context, List.isEmpty_cons, Bool.or_self, Bool.false_eq_true,
      if_false, hfind, Nat.zero_sub, Nat.zero_add, List.drop_zero, Nat.sub_zero,
      Nat.lt_irrefl]
    rcases Nat.lt_or_ge ((b :: bs).length + w) (a :: as).length with hlt | hge
    · rw [Nat.min_eq_right (Nat.le_of_lt hlt), if_pos hlt, if_pos hlt]
    · rw [Nat.min_eq_left hge, if_neg (by omega), if_neg (by omega),
        List.take_length, List.take_of_length_le hge, List.append_nil]
  · intro w content v i hv hcont hfind hend
    obtain ⟨a, as, rfl⟩ := List.exists_cons_of_ne_nil hcont
    obtain ⟨b, bs, rfl⟩ := List.exists_cons_of_ne_nil hv
    simp only [build_context, List.isEmpty_cons, Bool.or_self, Bool.false_eq_true,
      if_false, hfind]
    have hstop : min (a :: as).length (i + (b :: bs).length + w) = (a :: as).length := by
      omega
    rw [hstop, if_neg (Nat.lt_irrefl _)]
    have htake : ((a :: as).drop (i - w)).take ((a :: as).length - (i - w)) =
        (a :: as).drop (i - w) := by
      apply List.take_of_length_le
      rw [List.length_drop]
    rw [htake]
    by_cases hpre : 0 < i - w
    · rw [if_pos hpre, if_pos hpre]
    · rw [if_neg hpre, if_neg hpre, List.nil_append]

/-- Witness for the no-left-ellipsis and no-right-ellipsis parts of
C3_amended at concrete inputs. -/
theorem C3_amended_witness :
    build_context 1 (s2l "SECAB") (s2l "SEC") = s2l "SECA..." ∧
    build_context 3 (s2l "xySEC") (s2l "SEC") = s2l "xySEC" := by
  constructor
  · have h := C3_amended.2.1 1 (s2l "SECAB") (s2l "SEC")
      (by decide) (by decide) (by decide)
    rw [h]
    decide
  · have h := C3_amended.2.2 3 (s2l "xySEC") (s2l "SEC") 2
      (by decide) (by decide) (by decide) (by decide)
    rw [h]
    decide

/-- Claim C4: for every well-formed two-line output `"CONFIDENCE: X"` /
`"REASONING: Y"` with `X` one of the four confidence tokens and `Y`
newline-free, the parser recovers exactly `X` and the stripped `Y`. -/
theorem C4_roundtrip (X Y : Str)
    (hX : X ∈ [s2l "High", s2l "Medium", s2l "Low", s2l "None"])
    (hY : ('\n' : Char) ∉ Y) :
    parse_verdict (s2l "CONFIDENCE: " ++ X ++ '\n' :: (s2l "REASONING: " ++ Y)) =
      ⟨X, pyStrip Y⟩ := by
  simp only [List.mem_cons, List.not_mem_nil, or_false] at hX
  rcases hX with rfl | rfl | rfl | rfl
  · rw [(by decide : s2l "CONFIDENCE: " ++ s2l "High" = s2l "CONFIDENCE: High")]
    exact parse_verdict_two_lines (s2l "CONFIDENCE: High") Y (s2l "High")
      (by decide) (by decide) (by decide) (by decide) (by decide) hY
  · rw [(by decide : s2l "CONFIDENCE: " ++ s2l "Medium" = s2l "CONFIDENCE: Medium")]
    exact parse_verdict_two_lines (s2l "CONFIDENCE: Medium") Y (s2l "Medium")
      (by decide) (by decide) (by decide) (by decide) (by decide) hY
  · rw [(by decide : s2l "CONFIDENCE: " ++ s2l "Low" = s2l "CONFIDENCE: Low")]
    exact parse_verdict_two_lines (s2l "CONFIDENCE: Low") Y (s2l "Low")
      (by decide) (by decide) (by decide) (by decide) (by decide) hY
  · rw [(by decide : s2l "CONFIDENCE: " ++ s2l "None" = s2l "CONFIDENCE: None")]
    exact parse_verdict_two_lines (s2l "CONFIDENCE: None") Y (s2l "None")
      (by decide) (by decide) (by decide) (by decide) (by decide) hY

/-- Witness for C4_roundtrip at a concrete well-formed output. -/
theorem C4_witness :
    parse_verdict (s2l "CONFIDENCE: " ++ s2l "High" ++
        '\n' :: (s2l "REASONING: " ++ s2l "Looks like a live password.")) =
      ⟨s2l "High", pyStrip (s2l "Looks like a live password.")⟩ :=
  C4_roundtrip (s2l "High") (s2l "Looks like a live password.") (by decide) (by decide)

/-- Claim C5: for a non-skipped row, a finding is produced iff the parsed
confidence compares case-insensitively equal to `"high"` or `"medium"`; the
gate is exactly that comparison and depends only on the confidence string. -/
theorem C5_gate (ai : AIOutcome) (now : Str) (row : Row)
    (h : skipVal row.potential_secret = false) :
    ((processRow ai now row).1.isSome =
      gate (parse_verdict (analyze_with_ai (pvStr row.content)
        (some (pvStr row.potential_secret)) ai).1).confidence) ∧
    (∀ c : Str, gate c =
      ((lowerStr c == s2l "high") || (lowerStr c == s2l "medium"))) ∧
    (∀ v w : Verdict, v.confidence = w.confidence →
      gate v.confidence = gate w.confidence) := by
  refine ⟨?_, fun c => rfl, fun v w hvw => by rw [hvw]⟩
  simp only [processRow, h, Bool.false_eq_true, if_false]
  by_cases hg : gate (parse_verdict (analyze_with_ai (pvStr row.content)
      (some (pvStr row.potential_secret)) ai).1).confidence
  · simp [hg]
  · simp [hg]

/-- Witness for C5_gate on a concrete accepted row. -/
theorem C5_witness :
    (processRow (.ok (s2l "CONFIDENCE: High\nREASONING: ok")) (s2l "T")
        ⟨some (s2l "r"), some (s2l "f"), .str (s2l "ctx"), .str (s2l "abcd")⟩).1.isSome =
      gate (parse_verdict (analyze_with_ai (pvStr (PyVal.str (s2l "ctx")))
        (some (pvStr (PyVal.str (s2l "abcd"))))
        (.ok (s2l "CONFIDENCE: High\nREASONING: ok"))).1).confidence :=
  (C5_gate (.ok (s2l "CONFIDENCE: High\nREASONING: ok")) (s2l "T")
    ⟨some (s2l "r"), some (s2l "f"), .str (s2l "ctx"), .str (s2l "abcd")⟩ (by decide)).1

/-- Claim C6: a failing classification call never escapes
`analyze_with_ai`: it returns the quota degraded literal when the error
message contains `"Quota"`, else the communication degraded literal, and
both literals have `"CONFIDENCE: None"` as their first line. -/
theorem C6_degraded (code_snippet : Str) (v : Option Str) (msg : Str)
    (h : shouldSkip v = false) :
    analyze_with_ai code_snippet v (.err msg) =
      ((if isSubstring (s2l "Quota") msg then
          s2l "CONFIDENCE: None\nREASONING: Vertex AI quota exceeded during analysis."
        else s2l "CONFIDENCE: None\nREASONING: Error during AI analysis communication."),
        true) ∧
    (splitNl (s2l "CONFIDENCE: None\nREASONING: Vertex AI quota exceeded during analysis.")).getD 0 []
      = s2l "CONFIDENCE: None" ∧
    (splitNl (s2l "CONFIDENCE: None\nREASONING: Error during AI analysis communication.")).getD 0 []
      = s2l "CONFIDENCE: None" := by
  refine ⟨?_, by decide, by decide⟩
  simp only [analyze_with_ai, h, Bool.false_eq_true, if_false]
  by_cases hq : isSubstring (s2l "Quota") msg <;> simp [hq]

/-- Witness for C6_degraded at a quota-exhaustion error. -/
theorem C6_witness :
    analyze_with_ai (s2l "c") (some (s2l "abcd")) (.err (s2l "429 Quota exceeded")) =
      (s2l "CONFIDENCE: None\nREASONING: Vertex AI quota exceeded during analysis.", true) := by
  have h := (C6_degraded (s2l "c") (some (s2l "abcd")) (s2l "429 Quota exceeded")
    (by decide)).1
  rw [h]
  decide

/-- Claim C9: every single-line classifier output — whether or not the line
is a valid `CONFIDENCE:` line — gets reasoning
`"AI response missing reasoning."`, and when the line does not start with
`"CONFIDENCE:"` the confidence keeps its default `"None"`. -/
theorem C9_single_line (s : Str) (h : ('\n' : Char) ∉ pyStrip s) :
    (parse_verdict s).reasoning = s2l "AI response missing reasoning." ∧
    ((s2l "CONFIDENCE:").isPrefixOf (pyStrip s) = false →
      (parse_verdict s).confidence = s2l "None") := by
  have hl : splitNl (pyStrip s) = [pyStrip s] := splitNl_of_not_mem h
  have hp : parse_verdict s =
      ⟨if (s2l "CONFIDENCE:").isPrefixOf (pyStrip s) = true
          then pyStrip (afterColon (pyStrip s)) else s2l "None",
        s2l "AI response missing reasoning."⟩ := by
    simp only [parse_verdict, hl]
    simp [List.getD]
  constructor
  · rw [hp]
  · intro hpre
    rw [hp]
    simp [hpre]

/-- Witness for C9_single_line on a non-CONFIDENCE single line. -/
theorem C9_witness :
    (parse_verdict (s2l "hello")).reasoning = s2l "AI response missing reasoning." ∧
    (parse_verdict (s2l "hello")).confidence = s2l "None" :=
  ⟨(C9_single_line (s2l "hello") (by decide)).1,
   (C9_single_line (s2l "hello") (by decide)).2 (by decide)⟩

/-- Claim C7: a permission error from the query stage yields status 500 with
a body naming the permission failure, zero processed candidates, no
classifier call, no finding and no sink call; a malformed-query error yields
the distinct `"Bad Query Error"` body and logs the failing query text. -/
theorem C7_fatal_query (pmsg bmsg : Str) (ai : Nat → AIOutcome) (now : Str)
    (sink : SinkOutcome) :
    (hunt_and_analyze (.forbidden pmsg) ai now sink).body =
      s2l "Permission Error: " ++ pmsg ∧
    (hunt_and_analyze (.forbidden pmsg) ai now sink).status = 500 ∧
    (hunt_and_analyze (.forbidden pmsg) ai now sink).processed = 0 ∧
    (hunt_and_analyze (.forbidden pmsg) ai now sink).classifierCalls = 0 ∧
    (hunt_and_analyze (.forbidden pmsg) ai now sink).findings = [] ∧
    (hunt_and_analyze (.forbidden pmsg) ai now sink).sinkCalled = false ∧
    (hunt_and_analyze (.badRequest bmsg) ai now sink).body =
      s2l "Bad Query Error: " ++ bmsg ∧
    (hunt_and_analyze (.badRequest bmsg) ai now sink).status = 500 ∧
    (hunt_and_analyze (.badRequest bmsg) ai now sink).sinkCalled = false ∧
    (s2l "Failing Query:\n---\n" ++ HUNT_QUERY ++ s2l "\n---") ∈
      (hunt_and_analyze (.badRequest bmsg) ai now sink).errorLog ∧
    (hunt_and_analyze (.forbidden pmsg) ai now sink).body ≠
      (hunt_and_analyze (.badRequest bmsg) ai now sink).body := by
  refine ⟨rfl, rfl, rfl, rfl, rfl, rfl, rfl, rfl, rfl, ?_, ?_⟩
  · simp [hunt_and_analyze]
  · intro hcontra
    have h1 : (hunt_and_analyze (.forbidden pmsg) ai now sink).body =
        s2l "Permission Error: " ++ pmsg := rfl
    have h2 : (hunt_and_analyze (.badRequest bmsg) ai now sink).body =
        s2l "Bad Query Error: " ++ bmsg := rfl
    rw [h1, h2] at hcontra
    have hP : s2l "Permission Error: " ++ pmsg =
        'P' :: (s2l "ermission Error: " ++ pmsg) := by
      rw [(by decide : s2l "Permission Error: " = 'P' :: s2l "ermission Error: ")]
      rfl
    have hB : s2l "Bad Query Error: " ++ bmsg =
        'B' :: (s2l "ad Query Error: " ++ bmsg) := by
      rw [(by decide : s2l "Bad Query Error: " = 'B' :: s2l "ad Query Error: ")]
      rfl
    rw [hP, hB] at hcontra
    injection hcontra with hhead _
    exact absurd hhead (by decide)

/-- Claim C8: the reported body and status of a successful run do not
depend on the persistence outcome; a ten-candidate batch in which every row
is rejected by the gate reports processed 10, accepted 0, status 200, and
attempts no insert. -/
theorem C8_persistence_independent :
    (∀ (rows : List Row) (ai : Nat → AIOutcome) (now : Str) (s1 s2 : SinkOutcome),
      (hunt_and_analyze (.ok rows) ai now s1).body =
        (hunt_and_analyze (.ok rows) ai now s2).body ∧
      (hunt_and_analyze (.ok rows) ai now s1).status =
        (hunt_and_analyze (.ok rows) ai now s2).status) ∧
    (∀ (rows : List Row) (ai : Nat → AIOutcome) (now : Str) (sink : SinkOutcome),
      rows.length = 10 →
      (∀ j (hj : j < rows.length), (processRow (ai j) now (rows.get ⟨j, hj⟩)).1 = none) →
      (hunt_and_analyze (.ok rows) ai now sink).body = successMsg 10 0 ∧
      (hunt_and_analyze (.ok rows) ai now sink).status = 200 ∧
      (hunt_and_analyze (.ok rows) ai now sink).processed = 10 ∧
      (hunt_and_analyze (.ok rows) ai now sink).findings = [] ∧
      (hunt_and_analyze (.ok rows) ai now sink).sinkCalled = false) := by
  constructor
  · intro rows ai now s1 s2
    exact ⟨rfl, rfl⟩
  · intro rows ai now sink hlen hrej
    have hfnil : (runLoop ai now rows 0).findings = [] := by
      apply runLoop_findings_nil
      intro j hj
      have h1 := hrej j hj
      simpa using h1
    have hproc : (runLoop ai now rows 0).processed = 10 := by
      rw [runLoop_processed, hlen]
    refine ⟨?_, rfl, hproc, hfnil, ?_⟩
    · show successMsg (runLoop ai now rows 0).processed
        (runLoop ai now rows 0).findings.length = successMsg 10 0
      rw [hproc, hfnil]
      rfl
    · show (!(runLoop ai now rows 0).findings.isEmpty) = false
      rw [hfnil]
      rfl

/-- Witness for C8_persistence_independent: ten placeholder rows, a failing
sink, yet status 200, processed 10 and no insert. -/
theorem C8_witness :
    (hunt_and_analyze (.ok (List.replicate 10
        (⟨some (s2l "r"), some (s2l "p"), .str (s2l "c"), .str (s2l "my_test_key_123")⟩ : Row)))
      (fun _ => .ok (s2l "x")) (s2l "T") (.raised (s2l "boom"))).status = 200 ∧
    (hunt_and_analyze (.ok (List.replicate 10
        (⟨some (s2l "r"), some (s2l "p"), .str (s2l "c"), .str (s2l "my_test_key_123")⟩ : Row)))
      (fun _ => .ok (s2l "x")) (s2l "T") (.raised (s2l "boom"))).processed = 10 ∧
    (hunt_and_analyze (.ok (List.replicate 10
        (⟨some (s2l "r"), some (s2l "p"), .str (s2l "c"), .str (s2l "my_test_key_123")⟩ : Row)))
      (fun _ => .ok (s2l "x")) (s2l "T") (.raised (s2l "boom"))).sinkCalled = false := by
  have h := C8_persistence_independent.2
    (List.replicate 10
      (⟨some (s2l "r"), some (s2l "p"), .str (s2l "c"), .str (s2l "my_test_key_123")⟩ : Row))
    (fun _ => .ok (s2l "x")) (s2l "T") (.raised (s2l "boom"))
    (by decide) (by decide)
  exact ⟨h.2.1, h.2.2.1, h.2.2.2.2⟩

/-- Claim C10: every yielded row increments the processed count, and a row
whose `potential_secret` is missing, `None`, non-string or empty is skipped
with no classifier call and no finding. -/
theorem C10_processed_count (rows : List Row) (ai : Nat → AIOutcome) (now : Str)
    (sink : SinkOutcome) :
    (hunt_and_analyze (.ok rows) ai now sink).processed = rows.length ∧
    (∀ (a : AIOutcome) (n : Str) (r : Row), skipVal r.potential_secret = true →
      processRow a n r = (none, false)) := by
  constructor
  · show (runLoop ai now rows 0).processed = rows.length
    exact runLoop_processed ai now rows 0
  · intro a n r hskip
    simp [processRow, hskip]

/-- Witness for C10_processed_count: three invalid-secret rows are all
counted, and a `None`-secret row is skipped with no classifier call. -/
theorem C10_witness :
    (hunt_and_analyze (.ok [(⟨none, none, .noneV, .noneV⟩ : Row),
        ⟨some (s2l "r"), some (s2l "p"), .str (s2l "c"), .other⟩,
        ⟨some (s2l "r"), some (s2l "p"), .str (s2l "c"), .str []⟩])
      (fun _ => .ok (s2l "x")) (s2l "T") .ok).processed = 3 ∧
    processRow (.ok (s2l "x")) (s2l "T") (⟨none, none, .noneV, .noneV⟩ : Row) =
      (none, false) :=
  ⟨(C10_processed_count [(⟨none, none, .noneV, .noneV⟩ : Row),
      ⟨some (s2l "r"), some (s2l "p"), .str (s2l "c"), .other⟩,
      ⟨some (s2l "r"), some (s2l "p"), .str (s2l "c"), .str []⟩]
      (fun _ => .ok (s2l "x")) (s2l "T") .ok).1,
   (C10_processed_count [] (fun _ => .ok (s2l "x")) (s2l "T") .ok).2 _ _ _ (by decide)⟩

end SecretScanner
